import Mathlib

/-
Verification of the golden-thread traceability framework.

Shallow embedding of the core of the repository:
  src/golden_thread/__init__.py        (ID_PATTERNS)
  src/golden_thread/manifest.py        (Manifest and its mapping records)
  src/golden_thread/parsers/base.py    (CodeSymbol, qualified_path)
  src/golden_thread/notion/client.py   (file cache: _get_cached / _set_cached)
  src/golden_thread/notion/registry.py (NotionRegistry: get_entry, chain validation,
                                        validate_id_format)
  src/golden_thread/validators/coverage.py
  src/golden_thread/validators/orphans.py
  src/golden_thread/validators/consistency.py

Python strings become String, lists become List, dicts used as finite maps
become association lists (List (key × value)), Python sets used only for
membership / cardinality become Finset String, exceptions become
Except String, and float percentages become exact rationals (ℚ).
Remote I/O (the Notion HTTP client) is an external collaborator: functions
that call it are parameterized by an oracle describing its behaviour, with
Except String capturing a raised NotionError.
-/

/-! String helpers.

Python str.split, str.startswith and str.lower are modelled at the
character-list level (all separators used by the sources are single
characters, and all compared text is ASCII), so that every definition
below evaluates by kernel reduction. -/

/-- Python s.split(sep) over the character list: splitting the empty
string yields one empty part, and separators at the ends yield empty
parts, as in Python. -/
def splitCharList (sep : Char) : List Char → List (List Char)
  | [] => [[]]
  | c :: cs =>
      let r := splitCharList sep cs
      if c = sep then [] :: r
      else
        match r with
        | [] => [[c]]
        | h :: t => (c :: h) :: t

/-- Python s.split(sep) for a single-character separator. -/
def pySplit (sep : Char) (s : String) : List String :=
  (splitCharList sep s.toList).map fun cs => String.mk cs

/-- Python s.startswith(pre). -/
def pyStartsWith (s pre : String) : Bool :=
  pre.toList.isPrefixOf s.toList

/-- Python s.lower() for the ASCII text compared by the sources. -/
def pyLower (s : String) : String :=
  String.mk (s.toList.map Char.toLower)

/-! Data model: parsers/base.py -/

/-- CodeSymbol from parsers/base.py: a parsed code symbol. -/
structure CodeSymbol where
  name : String
  type : String
  file_path : String
  line_start : Nat
  line_end : Nat
  parent : Option String := none
deriving DecidableEq, Repr

/-- CodeSymbol.qualified_path: `file::parent.name` when a parent is set
(Python truthiness: an empty-string parent counts as absent), else
`file::name`. -/
def CodeSymbol.qualified_path (s : CodeSymbol) : String :=
  match s.parent with
  | some p => if p ≠ "" then s.file_path ++ "::" ++ p ++ "." ++ s.name
              else s.file_path ++ "::" ++ s.name
  | none => s.file_path ++ "::" ++ s.name

/-! Data model: manifest.py -/

/-- SymbolMapping from manifest.py. -/
structure SymbolMapping where
  path : String
  type : String
  ids : List String
deriving DecidableEq, Repr

/-- FeatureMapping from manifest.py. -/
structure FeatureMapping where
  id : String
  description : String := ""
  business_requirements : List String := []
  user_requirements : List String := []
  call_flows : List String := []
deriving DecidableEq, Repr

/-- InterfaceMapping from manifest.py. -/
structure InterfaceMapping where
  id : String
  type : String
  endpoint : Option String := none
  operation : Option String := none
  service : Option String := none
  method : Option String := none
  requirements : List String := []
deriving DecidableEq, Repr

/-- TestMapping from manifest.py. -/
structure TestMapping where
  path : String
  test_cases : List String := []
  verifications : List String := []
deriving DecidableEq, Repr

/-- Exclusions from manifest.py. -/
structure Exclusions where
  patterns : List String := []
  symbols : List String := []
deriving DecidableEq, Repr

/-- Manifest from manifest.py (metadata is an opaque key/value list; it is
never consulted by the validators). -/
structure Manifest where
  service : String
  version : String
  metadata : List (String × String) := []
  symbols : List SymbolMapping
  features : List FeatureMapping := []
  interfaces : List InterfaceMapping := []
  tests : List TestMapping := []
  exclusions : Exclusions := {}
deriving DecidableEq, Repr

/-- Manifest.get_symbol_paths: the set of mapping paths; modelled as the
list of paths (only membership in the set is ever used). -/
def Manifest.get_symbol_paths (m : Manifest) : List String :=
  m.symbols.map (·.path)

/-- Manifest.is_excluded: membership of a qualified path in the explicit
exclusion-symbol list. -/
def Manifest.is_excluded (m : Manifest) (symbol_path : String) : Bool :=
  symbol_path ∈ m.exclusions.symbols

/-- Python id_str.split("-")[0]: the text before the first dash (the whole
string when there is no dash). Used by Manifest.get_all_referenced_ids. -/
def idTypeOf (id_str : String) : String :=
  (pySplit '-' id_str).headD ""

/-- One step of `ids_by_type.setdefault(ty, set()).add(i)` over an
association list of (type, id-list) pairs; ids are appended once. -/
def addRefId (acc : List (String × List String)) (ty i : String) :
    List (String × List String) :=
  match acc with
  | [] => [(ty, [i])]
  | (t, is) :: rest =>
      if t = ty then (t, if i ∈ is then is else is ++ [i]) :: rest
      else (t, is) :: addRefId rest ty i

/-- Manifest.get_all_referenced_ids: every id referenced anywhere in the
manifest, grouped by type prefix, following the source order: symbol
mapping ids, feature ids and their BR/UR/CF links, interface ids and their
requirements, test-case and verification ids. -/
def Manifest.get_all_referenced_ids (m : Manifest) : List (String × List String) :=
  let acc1 := m.symbols.foldl
    (fun acc sym => sym.ids.foldl (fun a i => addRefId a (idTypeOf i) i) acc) []
  let acc2 := m.features.foldl
    (fun acc f =>
      let a := addRefId acc (idTypeOf f.id) f.id
      let a := f.business_requirements.foldl (fun a i => addRefId a "BR" i) a
      let a := f.user_requirements.foldl (fun a i => addRefId a "UR" i) a
      f.call_flows.foldl (fun a i => addRefId a "CF" i) a) acc1
  let acc3 := m.interfaces.foldl
    (fun acc itf =>
      let a := addRefId acc (idTypeOf itf.id) itf.id
      itf.requirements.foldl (fun a i => addRefId a (idTypeOf i) i) a) acc2
  m.tests.foldl
    (fun acc t =>
      let a := t.test_cases.foldl (fun a i => addRefId a "TC" i) acc
      t.verifications.foldl (fun a i => addRefId a "V" i) a) acc3

/-! Glob matching.

coverage.py filters exclusion patterns with fnmatch.fnmatch, orphans.py
with pathlib.Path.match; both are modelled here over the glob constructs
the manifests use: star, question mark and literal characters (character
classes do not occur in any exclusion pattern of this repository). -/

/-- fnmatch.fnmatch on POSIX: the whole name must match the pattern; a
star matches ANY character sequence, including the path separator (its
regex translation is dot-star), a question mark any single character, and
anything else itself. The star case ranges over all suffixes of the
remaining name. -/
def fnmatchChars : List Char → List Char → Bool
  | [], cs => cs.isEmpty
  | '*' :: ps, cs => cs.tails.any fun suffix => fnmatchChars ps suffix
  | '?' :: ps, cs =>
      match cs with
      | [] => false
      | _ :: cs' => fnmatchChars ps cs'
  | p :: ps, cs =>
      match cs with
      | [] => false
      | c :: cs' => p = c && fnmatchChars ps cs'

/-- fnmatch.fnmatch(name, pattern). -/
def fnmatch (name pattern : String) : Bool :=
  fnmatchChars pattern.toList name.toList

/-- pathlib.Path(path).match(pattern) with a relative pattern: the pattern
is split into components, aligned against the RIGHTMOST components of the
path, and each component is matched with fnmatch-style rules; a star never
crosses a component boundary because components contain no separator. -/
def pathMatch (path pattern : String) : Bool :=
  let pp := pySplit '/' pattern
  let fp := pySplit '/' path
  pp.length ≤ fp.length &&
    ((fp.drop (fp.length - pp.length)).zip pp).all fun cp => fnmatch cp.1 cp.2

/-- Modelled from the spec: the glob semantics §4.3 states for the
exclusion filter, where a star stays within one path segment and a
double-star component spans any number of whole segments. Defined only to
compare the two implementations against the specified semantics. -/
def specSegsMatch : List String → List String → Bool
  | [], cs => cs.isEmpty
  | "**" :: ps, cs => cs.tails.any fun suffix => specSegsMatch ps suffix
  | p :: ps, cs =>
      match cs with
      | [] => false
      | c :: cs' => fnmatch c p && specSegsMatch ps cs'

/-- Modelled from the spec: whole-path glob match with segment-local star
and cross-segment double-star. -/
def specGlobMatch (path pattern : String) : Bool :=
  specSegsMatch (pySplit '/' pattern) (pySplit '/' path)

/-! Coverage validator: validators/coverage.py -/

/-- One entry of the errors list of CoverageResult (a Python dict with a
code, a message, the offending path, and context fields that vary by
code). -/
structure CovError where
  code : String
  message : String
  path : String
  ids : List String := []
  file : String := ""
  line : Nat := 0
  type : String := ""
deriving DecidableEq, Repr

/-- CoverageResult from validators/coverage.py; the percentage is an exact
rational standing for the Python float. -/
structure CoverageResult where
  total_symbols : Nat
  mapped_symbols : Nat
  orphan_symbols : List String := []
  invalid_mappings : List String := []
  coverage_percentage : ℚ := 0
  errors : List CovError := []
deriving DecidableEq, Repr

namespace CoverageValidator

/-- CoverageValidator._should_check_symbol: skip names starting with an
underscore, the listed dunder methods, names starting with test marker,
and unittest setup/teardown methods. -/
def should_check_symbol (s : CodeSymbol) : Bool :=
  if pyStartsWith s.name "_" then false
  else if s.name ∈ ["__init__", "__str__", "__repr__", "__eq__", "__hash__"] then false
  else if pyStartsWith s.name "test_" then false
  else if s.name ∈ ["setUp", "tearDown", "setUpClass", "tearDownClass"] then false
  else true

/-- CoverageValidator._is_excluded: explicit exclusion-symbol membership,
or the symbol file path fnmatch-matches some exclusion pattern. -/
def is_excluded (m : Manifest) (s : CodeSymbol) : Bool :=
  if m.is_excluded s.qualified_path then true
  else m.exclusions.patterns.any fun pat => fnmatch s.file_path pat

/-- Error entry appended for a manifest mapping with no matching code.
Quote characters around the path in the source message are elided. -/
def orphanManifestErr (mp : SymbolMapping) : CovError :=
  { code := "ORPHAN_MANIFEST"
    message := "Manifest entry " ++ mp.path ++ " has no matching code"
    path := mp.path
    ids := mp.ids }

/-- Error entry appended for a checkable, non-excluded code symbol with no
manifest mapping. Quote characters around the path are elided. -/
def orphanCodeErr (s : CodeSymbol) : CovError :=
  { code := "ORPHAN_CODE"
    message := "Code symbol " ++ s.qualified_path ++ " not in manifest"
    path := s.qualified_path
    file := s.file_path
    line := s.line_start
    type := s.type }

/-- Accumulator of the first loop of CoverageValidator.validate: the
errors and invalid_mappings lists and the mapped_symbols set. -/
structure MapScan where
  errors : List CovError := []
  invalid_mappings : List String := []
  mapped : Finset String := ∅

/-- First loop of CoverageValidator.validate: each manifest mapping either
records an ORPHAN_MANIFEST error and an invalid mapping (no parsed symbol
with that qualified path) or adds its path to the mapped set. The Python
dict self.symbol_map is keyed by the parsed qualified paths, so membership
in it is membership in that key list. -/
def scanMappings (keys : List String) (ms : List SymbolMapping) : MapScan :=
  ms.foldl
    (fun acc mp =>
      if mp.path ∈ keys then { acc with mapped := insert mp.path acc.mapped }
      else { acc with
              errors := acc.errors ++ [orphanManifestErr mp]
              invalid_mappings := acc.invalid_mappings ++ [mp.path] })
    {}

/-- Second loop of CoverageValidator.validate: checkable symbols whose
qualified path has no manifest mapping and which are not excluded yield an
ORPHAN_CODE error and an orphan_symbols entry. -/
def scanSymbols (m : Manifest) (syms : List CodeSymbol) :
    List CovError × List String :=
  syms.foldl
    (fun acc s =>
      if should_check_symbol s then
        if s.qualified_path ∉ m.get_symbol_paths then
          if ¬ is_excluded m s then
            (acc.1 ++ [orphanCodeErr s], acc.2 ++ [s.qualified_path])
          else acc
        else acc
      else acc)
    ([], [])

/-- CoverageValidator.validate from validators/coverage.py. -/
def validate (m : Manifest) (syms : List CodeSymbol) : CoverageResult :=
  let scan := scanMappings (syms.map (·.qualified_path)) m.symbols
  let code := scanSymbols m syms
  let total := (syms.filter should_check_symbol).length
  let mapped := scan.mapped.card
  let coverage : ℚ := if total > 0 then (mapped : ℚ) / (total : ℚ) * 100 else 0
  { total_symbols := total
    mapped_symbols := mapped
    orphan_symbols := code.2
    invalid_mappings := scan.invalid_mappings
    coverage_percentage := coverage
    errors := scan.errors ++ code.1 }

end CoverageValidator

/-! Orphan validator: validators/orphans.py -/

/-- One entry of orphan_code (a Python dict with path/type/file/line). -/
structure OrphanCodeEntry where
  path : String
  type : String
  file : String
  line : Nat
deriving DecidableEq, Repr

/-- One entry of orphan_manifest (path plus its mapped ids). -/
structure OrphanManifestEntry where
  path : String
  ids : List String
deriving DecidableEq, Repr

/-- One suggestion entry (orphan path, side, suggestion text). -/
structure Suggestion where
  orphan : String
  type : String
  suggestion : String
deriving DecidableEq, Repr

/-- OrphanResult from validators/orphans.py. -/
structure OrphanResult where
  orphan_code : List OrphanCodeEntry := []
  orphan_manifest : List OrphanManifestEntry := []
  suggestions : List Suggestion := []
deriving DecidableEq, Repr

namespace OrphanValidator

/-- OrphanValidator._should_check_symbol: underscore names, the listed
dunder methods and test functions are skipped (unlike the coverage
validator, there is no setup/teardown clause here). -/
def should_check_symbol (s : CodeSymbol) : Bool :=
  if pyStartsWith s.name "_" then false
  else if s.name ∈ ["__init__", "__str__", "__repr__", "__eq__", "__hash__"] then false
  else if pyStartsWith s.name "test_" then false
  else true

/-- OrphanValidator._is_excluded: explicit exclusion-symbol membership, or
the symbol file path matches some exclusion pattern via pathlib
Path.match. -/
def is_excluded (m : Manifest) (s : CodeSymbol) : Bool :=
  if m.is_excluded s.qualified_path then true
  else m.exclusions.patterns.any fun pat => pathMatch s.file_path pat

/-- OrphanValidator._generate_manifest_snippet (newlines and the literal
quoting of the source template kept as plain text). -/
def manifest_snippet (s : CodeSymbol) : String :=
  "Add to .golden-thread.yaml:\n\n" ++
  "  - path: " ++ s.qualified_path ++ "\n" ++
  "    type: " ++ s.type ++ "\n" ++
  "    ids:\n" ++
  "      - FEAT-XXX-001  # Replace with actual feature ID\n" ++
  "      - FR-XXX-001    # Replace with actual requirement ID"

/-- OrphanValidator.detect_orphans from validators/orphans.py. The difflib
fuzzy matcher get_close_matches is an external library collaborator and is
passed in as close_matches (given the orphan path and all parsed qualified
paths, it returns the candidate list). -/
def detect_orphans (close_matches : String → List String → List String)
    (m : Manifest) (syms : List CodeSymbol) : OrphanResult :=
  let manifest_paths := m.get_symbol_paths
  let symbol_paths := syms.map (·.qualified_path)
  let codeOrphans := syms.filter fun s =>
    s.qualified_path ∉ manifest_paths ∧
      (¬ is_excluded m s ∧ should_check_symbol s)
  let orphan_code := codeOrphans.map fun s =>
    OrphanCodeEntry.mk s.qualified_path s.type s.file_path s.line_start
  let code_suggestions := codeOrphans.map fun s =>
    Suggestion.mk s.qualified_path "code" (manifest_snippet s)
  let manifestOrphans := m.symbols.filter fun mp => mp.path ∉ symbol_paths
  let orphan_manifest := manifestOrphans.map fun mp =>
    OrphanManifestEntry.mk mp.path mp.ids
  let manifest_suggestions := manifestOrphans.map fun mp =>
    let similar := close_matches mp.path (syms.map (·.qualified_path))
    if similar ≠ [] then
      Suggestion.mk mp.path "manifest"
        ("Did you mean one of these?\n" ++
          String.intercalate "\n" (similar.map (fun s => "  - " ++ s)))
    else
      Suggestion.mk mp.path "manifest"
        ("Symbol not found in codebase. " ++
          "Consider removing from manifest or fixing the path.")
  { orphan_code := orphan_code
    orphan_manifest := orphan_manifest
    suggestions := code_suggestions ++ manifest_suggestions }

end OrphanValidator

/-! Registry: notion/registry.py (and ID_PATTERNS from the package init). -/

/-- A Notion property value, by shape: a title / rich_text item list is
kept as its plain_text strings, a select as its optional name, a
multi_select as its names, a relation as its page-id list. -/
inductive NotionProp where
  | title (texts : List String)
  | rich (texts : List String)
  | select (name : Option String)
  | multi (names : List String)
  | relation (ids : List String)
deriving DecidableEq, Repr

/-- A Notion page: its properties dict. -/
structure Page where
  properties : List (String × NotionProp)
deriving DecidableEq, Repr

/-- Result of NotionRegistry._extract_property: the source returns either
a string or a list of strings (and the empty string on a miss). -/
inductive PropValue where
  | str (v : String)
  | strs (v : List String)
deriving DecidableEq, Repr

/-- The string reading of a PropValue (the Python code paths below only
use the string alternatives). -/
def PropValue.asStr : PropValue → String
  | .str v => v
  | .strs _ => ""

/-- The list reading of a PropValue. -/
def PropValue.asStrs : PropValue → List String
  | .str _ => []
  | .strs v => v

/-- RegistryEntry from notion/registry.py. -/
structure RegistryEntry where
  id : String
  title : String
  status : String
  properties : List (String × NotionProp) := []
  related_ids : List (String × List String) := []
deriving DecidableEq, Repr

/-- Dict get on the related_ids dict with default empty list
(`entry.related_ids.get(ty, [])`; plain `.get(ty)` is only ever used for
truthiness, which coincides with the default-list form). -/
def RegistryEntry.getRel (e : RegistryEntry) (ty : String) : List String :=
  match e.related_ids.find? (fun p => p.1 = ty) with
  | some p => p.2
  | none => []

namespace NotionRegistry

/-- RELATION_PROPERTIES from notion/registry.py: expected relation types
per registry type. -/
def RELATION_PROPERTIES : List (String × List String) :=
  [("FEAT", ["BR", "UR", "FR", "NFR", "TSR", "TCR", "CF"]),
   ("FR", ["V", "FEAT"]),
   ("NFR", ["V", "FEAT"]),
   ("TSR", ["V", "FEAT"]),
   ("TCR", ["V", "FEAT"]),
   ("V", ["TC", "FR", "NFR", "TSR", "TCR"]),
   ("TC", ["EA", "V"])]

/-- NotionRegistry._extract_property: read a value out of a property by
the requested property type; a missing property, a shape mismatch or an
empty item list degrades to the empty value, mirroring the dict .get
defaults of the source. -/
def extract_property (prop : Option NotionProp) (prop_type : String) : PropValue :=
  match prop with
  | none => .str ""
  | some p =>
      if prop_type = "title" then
        match p with
        | .title ts => .str (ts.headD "")
        | _ => .str ""
      else if prop_type = "rich_text" then
        match p with
        | .rich ts => .str (ts.headD "")
        | _ => .str ""
      else if prop_type = "select" then
        match p with
        | .select n => .str (n.getD "")
        | _ => .str ""
      else if prop_type = "multi_select" then
        match p with
        | .multi ns => .strs ns
        | _ => .strs []
      else if prop_type = "relation" then
        match p with
        | .relation ids => .strs ids
        | _ => .strs []
      else .str ""

/-- Python `a or b` on strings: first operand when non-empty. -/
def orStr (a b : String) : String :=
  if a ≠ "" then a else b

/-- Dict lookup in a page properties dict. -/
def propGet (props : List (String × NotionProp)) (name : String) : Option NotionProp :=
  match props.find? (fun p => p.1 = name) with
  | some p => some p.2
  | none => none

/-- Inner loop of NotionRegistry._extract_related_ids: try the property
names `T-IDs`, `T IDs`, `T` in order; the first one that is present AND
yields a non-empty relation list wins. -/
def findRelIds (props : List (String × NotionProp)) : List String → Option (List String)
  | [] => none
  | n :: ns =>
      match propGet props n with
      | none => findRelIds props ns
      | some p =>
          let ids := (extract_property (some p) "relation").asStrs
          if ids ≠ [] then some ids else findRelIds props ns

/-- NotionRegistry._extract_related_ids: for each expected relation type
of this registry type, store the first non-empty relation id list found
under the candidate property names. -/
def extract_related_ids (props : List (String × NotionProp)) (id_type : String) :
    List (String × List String) :=
  let relation_types :=
    match RELATION_PROPERTIES.find? (fun p => p.1 = id_type) with
    | some p => p.2
    | none => []
  relation_types.foldl
    (fun acc rel =>
      match findRelIds props [rel ++ "-IDs", rel ++ " IDs", rel] with
      | some ids => acc ++ [(rel, ids)]
      | none => acc)
    []

/-- NotionRegistry._parse_entry: normalize a page into a RegistryEntry by
trying the ordered property-name aliases for id, title and status. -/
def parse_entry (page : Page) (id_type : String) : RegistryEntry :=
  let props := page.properties
  let id_value :=
    orStr (extract_property (propGet props "ID") "title").asStr
      (orStr (extract_property (propGet props "Name") "title").asStr "")
  let title :=
    orStr (extract_property (propGet props "Title") "rich_text").asStr
      (orStr (extract_property (propGet props "Description") "rich_text").asStr
        (orStr (extract_property (propGet props "Name") "rich_text").asStr ""))
  let status :=
    orStr (extract_property (propGet props "Status") "select").asStr
      (orStr (extract_property (propGet props "State") "select").asStr "")
  { id := id_value
    title := title
    status := status
    properties := props
    related_ids := extract_related_ids props id_type }

/-- NotionRegistry._extract_id_type: the text before the first dash, or
none when the id contains no dash at all. -/
def extract_id_type (id_str : String) : Option String :=
  let parts := pySplit '-' id_str
  if parts.length < 2 then none else some (parts.headD "")

/-- ID_PATTERNS keys from the package init; the pattern stored for a key K
is the regex `caret K dash [A-Z]+ dash \d{3} dollar`, which
matchIdPattern below decides. -/
def ID_PATTERNS : List String :=
  ["BR", "UR", "FEAT", "CF", "FR", "NFR", "TSR", "TCR", "V", "TC", "EA",
   "IF", "EVT", "GQL", "RPC"]

/-- Decides re.match of the fixed pattern for type ty against the whole
id: since neither the uppercase class nor the digit class nor the type
literal can match a dash, the regex matches exactly the strings with two
dashes whose first part is the type, second part a non-empty run of
uppercase letters, and third part exactly three digits. -/
def matchIdPattern (ty : String) (s : String) : Bool :=
  match pySplit '-' s with
  | [a, b, c] =>
      a = ty ∧ b ≠ "" ∧ b.toList.all Char.isUpper ∧
        c.length = 3 ∧ c.toList.all Char.isDigit
  | _ => false

/-- NotionRegistry.validate_id_format: derive the type, look up its
pattern, and match; unknown type or missing pattern gives false. -/
def validate_id_format (id_str : String) : Bool :=
  match extract_id_type id_str with
  | none => false
  | some ty => if ty ∈ ID_PATTERNS then matchIdPattern ty id_str else false

/-- Filter parameters of a database query
(`{"property": ..., <mode>: {..., value}}`). -/
structure FilterParams where
  property : String
  mode : String
  value : String
deriving DecidableEq, Repr

/-- Behaviour of NotionClient.search_database as seen by the registry: a
function from database id and optional filter to either a raised
NotionError (Except.error) or a page list. -/
def SearchOracle := String → Option FilterParams → Except String (List Page)

/-- NotionRegistry.get_entry: resolve the id type (unknown format or
unconfigured type raises), query the database filtering on the ID
property, retrying once on error with the Name property, and parse the
first result; an empty result list is None, not an error. -/
def get_entry (database_ids : List (String × String)) (search : SearchOracle)
    (id_str : String) : Except String (Option RegistryEntry) :=
  match extract_id_type id_str with
  | none => .error ("Invalid ID format: " ++ id_str)
  | some id_type =>
      match (database_ids.find? (fun p => p.1 = id_type)) with
      | none => .error ("Unknown ID type: " ++ id_type ++
          "\nPlease add " ++ id_type ++ " database ID to configuration.")
      | some db =>
          let attempt :=
            match search db.2 (some ⟨"ID", "equals", id_str⟩) with
            | .error _ => search db.2 (some ⟨"Name", "contains", id_str⟩)
            | .ok r => .ok r
          match attempt with
          | .error e => .error e
          | .ok [] => .ok none
          | .ok (p :: _) => .ok (some (parse_entry p id_type))

/-- Entry-resolution oracle: the behaviour of self.get_entry as consumed
by chain validation (an Except.error is a raised NotionError). -/
def EntryOracle := String → Except String (Option RegistryEntry)

/-- Error text of the chain validator for an unresolved requirement or
verification id. -/
def invalidIdMsg (i : String) : String :=
  "INVALID_ID: " ++ i ++ " not found"

/-- Error text for a verification with no test case. -/
def missingTCMsg (v_id : String) : String :=
  "MISSING_TC: " ++ v_id ++ " has no Test Case"

/-- Error text for a verified verification with no evidence artifact. -/
def missingEAMsg (v_id : String) : String :=
  "MISSING_EA: " ++ v_id ++ " is Verified but has no Evidence Artifact"

/-- Error text for a requirement with no verification. -/
def missingVMsg (req_id : String) : String :=
  "MISSING_V: " ++ req_id ++ " has no Verification"

/-- Inner verification loop of validate_traceability_chain: per V id,
resolve (a raised error propagates, an absent entry records INVALID_ID and
continues); a resolved entry contributes MISSING_TC when it has no TC link
and, independently, MISSING_EA when its non-empty status lowercases to
verified and it has no EA link. -/
def vLoop (ge : EntryOracle) : List String → Except String (List String)
  | [] => .ok []
  | v_id :: rest =>
      match ge v_id with
      | .error e => .error e
      | .ok none =>
          match vLoop ge rest with
          | .error e => .error e
          | .ok es => .ok (invalidIdMsg v_id :: es)
      | .ok (some v) =>
          let e1 := if v.getRel "TC" = [] then [missingTCMsg v_id] else []
          let e2 :=
            if v.status ≠ "" ∧ pyLower v.status = "verified" ∧ v.getRel "EA" = []
            then [missingEAMsg v_id] else []
          match vLoop ge rest with
          | .error e => .error e
          | .ok es => .ok (e1 ++ e2 ++ es)

/-- Requirement loop of validate_traceability_chain over one relation
type: per requirement id, resolve (raised error propagates, absent records
INVALID_ID and continues); a requirement with no V link records MISSING_V
and continues, otherwise its V ids run through vLoop. -/
def reqLoop (ge : EntryOracle) : List String → Except String (List String)
  | [] => .ok []
  | req_id :: rest =>
      match ge req_id with
      | .error e => .error e
      | .ok none =>
          match reqLoop ge rest with
          | .error e => .error e
          | .ok es => .ok (invalidIdMsg req_id :: es)
      | .ok (some req) =>
          if req.getRel "V" = [] then
            match reqLoop ge rest with
            | .error e => .error e
            | .ok es => .ok (missingVMsg req_id :: es)
          else
            match vLoop ge (req.getRel "V") with
            | .error e => .error e
            | .ok ves =>
                match reqLoop ge rest with
                | .error e => .error e
                | .ok es => .ok (ves ++ es)

/-- Outer loop of validate_traceability_chain over the four requirement
relation types of the feature. -/
def typeLoop (ge : EntryOracle) (feat : RegistryEntry) :
    List String → Except String (List String)
  | [] => .ok []
  | t :: ts =>
      match reqLoop ge (feat.getRel t) with
      | .error e => .error e
      | .ok es =>
          match typeLoop ge feat ts with
          | .error e => .error e
          | .ok rest => .ok (es ++ rest)

/-- Chain validation result dict of notion/registry.py. -/
structure ChainResult where
  valid : Bool
  errors : List String
  warnings : List String
deriving DecidableEq, Repr

/-- NotionRegistry.validate_traceability_chain, parameterized by the
behaviour of self.get_entry: an unresolved feature short-circuits with
INVALID_ID; BR, UR and any-requirement links are required (errors), a CF
link is only warned about; then every requirement link of the four types
is walked by typeLoop. A NotionError raised by any get_entry call inside
(Except.error) propagates out of the whole validation, as in the source,
which wraps none of these calls in a handler. -/
def validate_traceability_chain (ge : EntryOracle) (feat_id : String) :
    Except String ChainResult :=
  match ge feat_id with
  | .error e => .error e
  | .ok none =>
      .ok { valid := false
            errors := ["INVALID_ID: " ++ feat_id ++ " not found in Feature Registry"]
            warnings := [] }
  | .ok (some feat) =>
      let e_br := if feat.getRel "BR" = [] then
        ["MISSING_BR: " ++ feat_id ++ " has no Business Requirement"] else []
      let e_ur := if feat.getRel "UR" = [] then
        ["MISSING_UR: " ++ feat_id ++ " has no User Requirement"] else []
      let has_requirements :=
        ["FR", "NFR", "TSR", "TCR"].any fun req_type => feat.getRel req_type ≠ []
      let e_fr := if ¬ has_requirements then
        ["MISSING_FR: " ++ feat_id ++ " has no Functional Requirements"] else []
      let warnings := if feat.getRel "CF" = [] then
        ["MISSING_CF: " ++ feat_id ++ " has no Call Flow"] else []
      match typeLoop ge feat ["FR", "NFR", "TSR", "TCR"] with
      | .error e => .error e
      | .ok loop_errors =>
          let errors := e_br ++ e_ur ++ e_fr ++ loop_errors
          .ok { valid := errors.isEmpty, errors := errors, warnings := warnings }

/-- The chain validator of a registry instance: get_entry over the
configured database ids and the client search behaviour. -/
def registry_validate_chain (database_ids : List (String × String))
    (search : SearchOracle) (feat_id : String) : Except String ChainResult :=
  validate_traceability_chain (get_entry database_ids search) feat_id

end NotionRegistry

/-! Consistency validator: validators/consistency.py -/

/-- One entry of the errors / warnings lists of ConsistencyResult (a
Python dict with a code, a message and context keys that vary by code). -/
structure ConsistencyEntry where
  code : String
  message : String
  context : List (String × String) := []
deriving DecidableEq, Repr

/-- ConsistencyResult from validators/consistency.py. -/
structure ConsistencyResult where
  valid : Bool
  errors : List ConsistencyEntry := []
  warnings : List ConsistencyEntry := []
deriving DecidableEq, Repr

namespace ConsistencyValidator

open NotionRegistry

/-- Behaviour of registry.validate_traceability_chain as seen by the
consistency validator. -/
def ChainOracle := String → Except String ChainResult

/-- Code extraction from a chain message (`parts = msg.split(":", 1)`):
the trimmed text before the first colon, or the default when the message
contains no colon. -/
def parseCode (msg dflt : String) : String :=
  let parts := pySplit ':' msg
  if parts.length > 1 then (parts.headD "").trim else dflt

/-- Error entry for an id whose format is invalid. -/
def invalidFormatEntry (i : String) : ConsistencyEntry :=
  { code := "INVALID_FORMAT"
    message := "Invalid ID format: " ++ i
    context := [("id", i)] }

/-- Error entry for an id absent from its registry. -/
def notFoundEntry (i ty : String) : ConsistencyEntry :=
  { code := "INVALID_ID"
    message := "ID not found in Notion: " ++ i
    context := [("id", i), ("id_type", ty)] }

/-- Error entry for an id whose existence check raised. -/
def checkFailedEntry (i e : String) : ConsistencyEntry :=
  { code := "INVALID_ID"
    message := "Error checking ID " ++ i ++ ": " ++ e
    context := [("id", i)] }

/-- Error entry for a feature whose chain validation itself raised. -/
def chainFailedEntry (feat_id e : String) : ConsistencyEntry :=
  { code := "VALIDATION_ERROR"
    message := "Failed to validate traceability chain for " ++ feat_id ++ ": " ++ e
    context := [("feature", feat_id)] }

/-- Per-id step of ConsistencyValidator.validate: an invalid format
records INVALID_FORMAT and skips the existence check entirely; otherwise
get_entry runs under a catch-all handler, so a raised error and an absent
entry both become INVALID_ID entries. -/
def checkId (ge : EntryOracle) (ty i : String) : List ConsistencyEntry :=
  if ¬ validate_id_format i then [invalidFormatEntry i]
  else
    match ge i with
    | .ok (some _) => []
    | .ok none => [notFoundEntry i ty]
    | .error e => [checkFailedEntry i e]

/-- Per-feature step of ConsistencyValidator.validate: chain validation
runs under a catch-all handler; on success its message lists are lifted to
entries whose code is parsed out of the message text, on a raised error a
single VALIDATION_ERROR entry is produced. -/
def checkFeature (ch : ChainOracle) (feat_id : String) :
    List ConsistencyEntry × List ConsistencyEntry :=
  match ch feat_id with
  | .ok r =>
      (r.errors.map fun msg =>
         { code := parseCode msg "VALIDATION_ERROR"
           message := msg
           context := [("feature", feat_id)] },
       r.warnings.map fun msg =>
         { code := parseCode msg "VALIDATION_WARNING"
           message := msg
           context := [("feature", feat_id)] })
  | .error e => ([chainFailedEntry feat_id e], [])

/-- ConsistencyValidator.validate from validators/consistency.py,
parameterized by the registry behaviours. Both registry interactions are
wrapped in handlers in the source, so the embedding is a total function:
whatever the oracles do, a ConsistencyResult is returned. -/
def validate (m : Manifest) (ge : EntryOracle) (ch : ChainOracle) :
    ConsistencyResult :=
  let idErrors := m.get_all_referenced_ids.flatMap fun p =>
    p.2.flatMap (checkId ge p.1)
  let featPairs := m.features.map fun f => checkFeature ch f.id
  let errors := idErrors ++ featPairs.flatMap Prod.fst
  let warnings := featPairs.flatMap Prod.snd
  { valid := errors.isEmpty, errors := errors, warnings := warnings }

end ConsistencyValidator

/-! Client cache: notion/client.py, _get_cached and _set_cached.

A cache entry is a file keyed by the cache key; its write time is the file
mtime and its content either parses (some payload) or is corrupted (none).
Timestamps are integers, the state is an association list keyed by cache
key, and now is passed explicitly. -/

/-- One cache file: its mtime and its parseable content (none models a
file whose json.load raises). -/
structure CacheFile (α : Type) where
  mtime : Int
  content : Option α
deriving DecidableEq, Repr

namespace NotionClient

/-- Lookup of the cache file stored under a key. -/
def cacheFind {α : Type} : List (String × CacheFile α) → String → Option (CacheFile α)
  | [], _ => none
  | (k, f) :: rest, key => if k = key then some f else cacheFind rest key

/-- cache_path.unlink(): drop the file stored under the key. -/
def cacheRemove {α : Type} : List (String × CacheFile α) → String → List (String × CacheFile α)
  | [], _ => []
  | (k, f) :: rest, key =>
      if k = key then cacheRemove rest key else (k, f) :: cacheRemove rest key

/-- Writing a cache file: replace the entry under the key, or append. -/
def cacheWrite {α : Type} : List (String × CacheFile α) → String → CacheFile α →
    List (String × CacheFile α)
  | [], key, f => [(key, f)]
  | (k, g) :: rest, key, f =>
      if k = key then (key, f) :: rest else (k, g) :: cacheWrite rest key f

/-- NotionClient._set_cached: no-op when caching is disabled, otherwise
write the payload under the key with the current time as mtime (a failed
persist would leave the state unchanged, which the disabled branch already
covers). -/
def set_cached {α : Type} (cache_enabled : Bool) (now : Int)
    (st : List (String × CacheFile α)) (key : String) (data : α) :
    List (String × CacheFile α) :=
  if cache_enabled then cacheWrite st key ⟨now, some data⟩ else st

/-- NotionClient._get_cached: returns the payload and the resulting cache
state. Disabled caching and a missing file are plain misses; a file older
than the TTL (strictly: now minus mtime greater than ttl) is deleted and
missed; a present fresh file returns its content unless json.load raises,
in which case the file is deleted and the read is a miss. -/
def get_cached {α : Type} (cache_enabled : Bool) (cache_ttl : Int) (now : Int)
    (st : List (String × CacheFile α)) (key : String) :
    Option α × List (String × CacheFile α) :=
  if ¬ cache_enabled then (none, st)
  else
    match cacheFind st key with
    | none => (none, st)
    | some f =>
        if now - f.mtime > cache_ttl then (none, cacheRemove st key)
        else
          match f.content with
          | some d => (some d, st)
          | none => (none, cacheRemove st key)

end NotionClient

/-! Theorems. Each claim of the specification gets one theorem below;
concrete inputs used by a claim are named with its number. -/

/-- Helper: a string whose Python lowercase form is the word verified is
not the empty string. -/
theorem status_nonempty_of_lower (s : String) (h : pyLower s = "verified") :
    s ≠ "" := by
  intro he
  subst he
  exact absurd h (by decide)

/-- C8: validate_id_format derives the type as the text before the first
dash, returns false when there is no dash, when the type has no pattern in
ID_PATTERNS, and otherwise whether the whole id matches the fixed pattern
of that type; concretely it accepts BR-AUTH-001 and rejects the lowercase
variant, the two-part BR-001 and the dashless INVALID. -/
theorem validate_id_format_spec :
    (∀ id_str, NotionRegistry.extract_id_type id_str = none →
      NotionRegistry.validate_id_format id_str = false) ∧
    (∀ id_str ty, NotionRegistry.extract_id_type id_str = some ty →
      ty ∉ NotionRegistry.ID_PATTERNS →
      NotionRegistry.validate_id_format id_str = false) ∧
    (∀ id_str ty, NotionRegistry.extract_id_type id_str = some ty →
      ty ∈ NotionRegistry.ID_PATTERNS →
      NotionRegistry.validate_id_format id_str =
        NotionRegistry.matchIdPattern ty id_str) ∧
    NotionRegistry.validate_id_format "BR-AUTH-001" = true ∧
    NotionRegistry.validate_id_format "br-auth-001" = false ∧
    NotionRegistry.validate_id_format "BR-001" = false ∧
    NotionRegistry.validate_id_format "INVALID" = false := by
  refine ⟨?_, ?_, ?_, by decide, by decide, by decide, by decide⟩
  · intro id_str h
    unfold NotionRegistry.validate_id_format
    rw [h]
  · intro id_str ty h hmem
    unfold NotionRegistry.validate_id_format
    rw [h]
    simp [hmem]
  · intro id_str ty h hmem
    unfold NotionRegistry.validate_id_format
    rw [h]
    simp [hmem]

/-- C8 witness: the general clauses applied to concrete ids: INVALID has
no dash hence fails, and the unknown type ZZ fails. -/
theorem validate_id_format_spec_witness :
    NotionRegistry.validate_id_format "INVALID" = false ∧
    NotionRegistry.validate_id_format "ZZ-AUTH-001" = false ∧
    NotionRegistry.validate_id_format "BR-AUTH-001" =
      NotionRegistry.matchIdPattern "BR" "BR-AUTH-001" :=
  ⟨validate_id_format_spec.1 "INVALID" (by decide),
   validate_id_format_spec.2.1 "ZZ-AUTH-001" "ZZ" (by decide) (by decide),
   validate_id_format_spec.2.2.1 "BR-AUTH-001" "BR" (by decide) (by decide)⟩

/-- C3 input: a symbol whose file path is a/b in a manifest whose only
exclusion pattern is a-star-b. -/
def c3Symbol : CodeSymbol :=
  { name := "helper", type := "function", file_path := "a/b",
    line_start := 1, line_end := 2 }

/-- C3 input: manifest with exclusion pattern a-star-b and no explicit
exclusion symbols. -/
def c3Manifest : Manifest :=
  { service := "svc", version := "1", symbols := [],
    exclusions := { patterns := ["a*b"], symbols := [] } }

/-- C3: the two validators disagree on exclusion. The coverage validator
(fnmatch) excludes the symbol with file path a/b under pattern a-star-b
because its star crosses the path separator; the orphan validator
(Path.match) does not; the glob semantics the spec states (star local to
one segment) also does not exclude it. -/
theorem coverage_orphan_exclusion_disagree :
    CoverageValidator.is_excluded c3Manifest c3Symbol = true ∧
    OrphanValidator.is_excluded c3Manifest c3Symbol = false ∧
    specGlobMatch c3Symbol.file_path "a*b" = false := by
  refine ⟨by decide, by decide, by decide⟩

/-- C10 inputs: one checkable symbol and one underscore-named symbol. -/
def c10Symbols : List CodeSymbol :=
  [{ name := "good", type := "function", file_path := "f.py",
     line_start := 1, line_end := 2 },
   { name := "_hidden", type := "function", file_path := "f.py",
     line_start := 3, line_end := 4 }]

/-- C10 input: a manifest mapping both symbols, the underscore one
included. -/
def c10Manifest : Manifest :=
  { service := "svc", version := "1",
    symbols := [{ path := "f.py::good", type := "function",
                  ids := ["FR-AUTH-001"] },
                { path := "f.py::_hidden", type := "function",
                  ids := ["FR-AUTH-002"] }] }

/-- C10: mapped_symbols counts every manifest path matching a parsed
symbol, checkable or not, while total_symbols counts only checkable
symbols, so a manifest mapping a non-checkable symbol pushes the coverage
percentage above one hundred. -/
theorem coverage_percentage_above_100 :
    (CoverageValidator.validate c10Manifest c10Symbols).total_symbols = 1 ∧
    (CoverageValidator.validate c10Manifest c10Symbols).mapped_symbols = 2 ∧
    (CoverageValidator.validate c10Manifest c10Symbols).coverage_percentage = 200 ∧
    100 < (CoverageValidator.validate c10Manifest c10Symbols).coverage_percentage := by
  have ht : (CoverageValidator.validate c10Manifest c10Symbols).total_symbols = 1 := by
    decide
  have hm : (CoverageValidator.validate c10Manifest c10Symbols).mapped_symbols = 2 := by
    decide
  have hc : (CoverageValidator.validate c10Manifest c10Symbols).coverage_percentage = 200 := by
    show (if (1 : Nat) > 0 then ((2 : Nat) : ℚ) / ((1 : Nat) : ℚ) * 100 else 0) = 200
    norm_num
  exact ⟨ht, hm, hc, by rw [hc]; norm_num⟩

/-- C2 input: database configuration knowing only the FEAT collection. -/
def c2DatabaseIds : List (String × String) := [("FEAT", "db-feat")]

/-- C2 input: the stored feature page, whose FR relation holds a raw
Notion page id (no dash, no configured type), as relation properties do. -/
def c2FeatPage : Page :=
  { properties := [("ID", .title ["FEAT-AUTH-001"]),
                   ("FR-IDs", .relation ["a1b2c3"])] }

/-- C2 input: a search behaviour serving the feature page from the FEAT
collection and failing for any other collection. -/
def c2Search : NotionRegistry.SearchOracle := fun db _f =>
  if db = "db-feat" then .ok [c2FeatPage] else .error "no such database"

/-- C2 counterexample: resolving the feature's FR link a1b2c3 makes
get_entry raise (invalid format: no dash, hence no configured collection),
and that exception escapes validate_traceability_chain instead of being
recorded as an INVALID_ID error: the whole call evaluates to a raised
error, refuting the claim that no exception escapes. -/
theorem chain_link_resolution_error_escapes :
    NotionRegistry.registry_validate_chain c2DatabaseIds c2Search "FEAT-AUTH-001" =
      .error "Invalid ID format: a1b2c3" := rfl

/-- C2 amended: a requirement link that resolves to no entry records
INVALID_ID and the loop continues with the remaining links; but an error
raised while resolving a link propagates out of the requirement loop, and
an error raised anywhere inside (feature resolution or the requirement
walk) propagates out of validate_traceability_chain itself. -/
theorem chain_invalid_id_continue_or_raise :
    (∀ (ge : NotionRegistry.EntryOracle) (req_id : String) (rest : List String)
        (es : List String),
      ge req_id = .ok none →
      NotionRegistry.reqLoop ge rest = .ok es →
      NotionRegistry.reqLoop ge (req_id :: rest) =
        .ok (NotionRegistry.invalidIdMsg req_id :: es)) ∧
    (∀ (ge : NotionRegistry.EntryOracle) (req_id : String) (rest : List String)
        (e : String),
      ge req_id = .error e →
      NotionRegistry.reqLoop ge (req_id :: rest) = .error e) ∧
    (∀ (ge : NotionRegistry.EntryOracle) (feat_id e : String),
      ge feat_id = .error e →
      NotionRegistry.validate_traceability_chain ge feat_id = .error e) ∧
    (∀ (ge : NotionRegistry.EntryOracle) (feat_id e : String)
        (feat : RegistryEntry),
      ge feat_id = .ok (some feat) →
      NotionRegistry.typeLoop ge feat ["FR", "NFR", "TSR", "TCR"] = .error e →
      NotionRegistry.validate_traceability_chain ge feat_id = .error e) := by
  refine ⟨?_, ?_, ?_, ?_⟩
  · intro ge req_id rest es hge hrest
    unfold NotionRegistry.reqLoop
    rw [hge, hrest]
  · intro ge req_id rest e hge
    unfold NotionRegistry.reqLoop
    rw [hge]
  · intro ge feat_id e hge
    unfold NotionRegistry.validate_traceability_chain
    rw [hge]
  · intro ge feat_id e feat hge hloop
    unfold NotionRegistry.validate_traceability_chain
    rw [hge]
    simp only [hloop]

/-- C2 witness: the amended clauses at the concrete configuration of the
counterexample: an id served with an empty result records INVALID_ID and
continues, and the concrete raised error propagates through the chain
validator. -/
theorem chain_invalid_id_continue_or_raise_witness :
    NotionRegistry.reqLoop
        (fun i => if i = "FR-AUTH-001" then .ok none else .ok none)
        ["FR-AUTH-001"] =
      .ok [NotionRegistry.invalidIdMsg "FR-AUTH-001"] ∧
    NotionRegistry.validate_traceability_chain
        (fun _ => .error "boom") "FEAT-AUTH-001" =
      .error "boom" :=
  ⟨chain_invalid_id_continue_or_raise.1
      (fun i => if i = "FR-AUTH-001" then .ok none else .ok none) "FR-AUTH-001" [] []
      rfl rfl,
   chain_invalid_id_continue_or_raise.2.2.1
      (fun _ => .error "boom") "FEAT-AUTH-001" "boom" rfl⟩

/-- C1: on a feature with BR and UR links, one requirement link (FR) whose
requirement has one verification, where that verification has status
lowercasing to verified and no evidence link, the chain result is invalid
with exactly the MISSING_EA error when a TestCase link is present — and
with both MISSING_TC and MISSING_EA when it is not, showing the two checks
fire independently. -/
theorem chain_verified_missing_ea
    (ge : NotionRegistry.EntryOracle)
    (feat_id req_id v_id : String) (feat req v : RegistryEntry)
    (hfeat : ge feat_id = .ok (some feat))
    (hbr : feat.getRel "BR" ≠ [])
    (hur : feat.getRel "UR" ≠ [])
    (hfr : feat.getRel "FR" = [req_id])
    (hnfr : feat.getRel "NFR" = [])
    (htsr : feat.getRel "TSR" = [])
    (htcr : feat.getRel "TCR" = [])
    (hreq : ge req_id = .ok (some req))
    (hv : req.getRel "V" = [v_id])
    (hvres : ge v_id = .ok (some v))
    (hst : pyLower v.status = "verified")
    (hea : v.getRel "EA" = []) :
    (v.getRel "TC" ≠ [] →
      NotionRegistry.validate_traceability_chain ge feat_id =
        .ok { valid := false,
              errors := [NotionRegistry.missingEAMsg v_id],
              warnings := if feat.getRel "CF" = []
                then ["MISSING_CF: " ++ feat_id ++ " has no Call Flow"]
                else [] }) ∧
    (v.getRel "TC" = [] →
      NotionRegistry.validate_traceability_chain ge feat_id =
        .ok { valid := false,
              errors := [NotionRegistry.missingTCMsg v_id,
                         NotionRegistry.missingEAMsg v_id],
              warnings := if feat.getRel "CF" = []
                then ["MISSING_CF: " ++ feat_id ++ " has no Call Flow"]
                else [] }) := by
  have hstne : v.status ≠ "" := status_nonempty_of_lower _ hst
  constructor
  · intro htc
    have hvl : NotionRegistry.vLoop ge [v_id] =
        .ok [NotionRegistry.missingEAMsg v_id] := by
      unfold NotionRegistry.vLoop
      rw [hvres]
      simp [htc, hstne, hst, hea, NotionRegistry.vLoop]
    have hrl : NotionRegistry.reqLoop ge [req_id] =
        .ok [NotionRegistry.missingEAMsg v_id] := by
      unfold NotionRegistry.reqLoop
      rw [hreq]
      simp [hv, hvl, NotionRegistry.reqLoop]
    have htl : NotionRegistry.typeLoop ge feat ["FR", "NFR", "TSR", "TCR"] =
        .ok [NotionRegistry.missingEAMsg v_id] := by
      unfold NotionRegistry.typeLoop
      rw [hfr, hrl]
      simp [hnfr, htsr, htcr, NotionRegistry.typeLoop, NotionRegistry.reqLoop]
    unfold NotionRegistry.validate_traceability_chain
    rw [hfeat]
    simp [hbr, hur, hfr, htl]
  · intro htc
    have hvl : NotionRegistry.vLoop ge [v_id] =
        .ok [NotionRegistry.missingTCMsg v_id, NotionRegistry.missingEAMsg v_id] := by
      unfold NotionRegistry.vLoop
      rw [hvres]
      simp [htc, hstne, hst, hea, NotionRegistry.vLoop]
    have hrl : NotionRegistry.reqLoop ge [req_id] =
        .ok [NotionRegistry.missingTCMsg v_id, NotionRegistry.missingEAMsg v_id] := by
      unfold NotionRegistry.reqLoop
      rw [hreq]
      simp [hv, hvl, NotionRegistry.reqLoop]
    have htl : NotionRegistry.typeLoop ge feat ["FR", "NFR", "TSR", "TCR"] =
        .ok [NotionRegistry.missingTCMsg v_id, NotionRegistry.missingEAMsg v_id] := by
      unfold NotionRegistry.typeLoop
      rw [hfr, hrl]
      simp [hnfr, htsr, htcr, NotionRegistry.typeLoop, NotionRegistry.reqLoop]
    unfold NotionRegistry.validate_traceability_chain
    rw [hfeat]
    simp [hbr, hur, hfr, htl]

/-- C1 witness feature: BR, UR, FR and CF links present. -/
def c1Feat : RegistryEntry :=
  { id := "FEAT-AUTH-001", title := "", status := "",
    related_ids := [("BR", ["br-page"]), ("UR", ["ur-page"]),
                    ("FR", ["FR-AUTH-001"]), ("CF", ["cf-page"])] }

/-- C1 witness requirement: one verification link. -/
def c1Req : RegistryEntry :=
  { id := "FR-AUTH-001", title := "", status := "",
    related_ids := [("V", ["V-AUTH-001"])] }

/-- C1 witness verification: a TestCase link, status Verified, no
evidence link. -/
def c1V : RegistryEntry :=
  { id := "V-AUTH-001", title := "", status := "Verified",
    related_ids := [("TC", ["tc-page"])] }

/-- C1 witness entry oracle. -/
def c1Oracle : NotionRegistry.EntryOracle := fun i =>
  if i = "FEAT-AUTH-001" then .ok (some c1Feat)
  else if i = "FR-AUTH-001" then .ok (some c1Req)
  else if i = "V-AUTH-001" then .ok (some c1V)
  else .ok none

/-- C1 witness: the concrete chain yields exactly the MISSING_EA error,
no warnings, and an invalid result. -/
theorem chain_verified_missing_ea_witness :
    NotionRegistry.validate_traceability_chain c1Oracle "FEAT-AUTH-001" =
      .ok { valid := false,
            errors := [NotionRegistry.missingEAMsg "V-AUTH-001"],
            warnings := if c1Feat.getRel "CF" = []
              then ["MISSING_CF: " ++ "FEAT-AUTH-001" ++ " has no Call Flow"]
              else [] } :=
  (chain_verified_missing_ea c1Oracle "FEAT-AUTH-001" "FR-AUTH-001" "V-AUTH-001"
      c1Feat c1Req c1V rfl (by decide) (by decide) (by decide) (by decide)
      (by decide) (by decide) rfl (by decide) rfl (by decide) (by decide)).1
    (by decide)

/-- C7: on a feature with BR and UR links, one requirement link whose
requirement has one verification with a TestCase link and no pending
evidence obligation, but no Call-Flow link, the chain result has no
errors, exactly the MISSING_CF warning, and is valid: a missing call flow
is only a warning. -/
theorem chain_missing_cf_warning_only
    (ge : NotionRegistry.EntryOracle)
    (feat_id req_id v_id : String) (feat req v : RegistryEntry)
    (hfeat : ge feat_id = .ok (some feat))
    (hbr : feat.getRel "BR" ≠ [])
    (hur : feat.getRel "UR" ≠ [])
    (hfr : feat.getRel "FR" = [req_id])
    (hnfr : feat.getRel "NFR" = [])
    (htsr : feat.getRel "TSR" = [])
    (htcr : feat.getRel "TCR" = [])
    (hcf : feat.getRel "CF" = [])
    (hreq : ge req_id = .ok (some req))
    (hv : req.getRel "V" = [v_id])
    (hvres : ge v_id = .ok (some v))
    (htc : v.getRel "TC" ≠ [])
    (hok : pyLower v.status ≠ "verified" ∨ v.getRel "EA" ≠ []) :
    NotionRegistry.validate_traceability_chain ge feat_id =
      .ok { valid := true,
            errors := [],
            warnings := ["MISSING_CF: " ++ feat_id ++ " has no Call Flow"] } := by
  have hno : ¬ (v.status ≠ "" ∧ pyLower v.status = "verified" ∧ v.getRel "EA" = []) := by
    rcases hok with h | h
    · intro hcontra
      exact h hcontra.2.1
    · intro hcontra
      exact h hcontra.2.2
  have hvl : NotionRegistry.vLoop ge [v_id] = .ok [] := by
    unfold NotionRegistry.vLoop
    rw [hvres]
    simp [htc, hno, NotionRegistry.vLoop]
  have hrl : NotionRegistry.reqLoop ge [req_id] = .ok [] := by
    unfold NotionRegistry.reqLoop
    rw [hreq]
    simp [hv, hvl, NotionRegistry.reqLoop]
  have htl : NotionRegistry.typeLoop ge feat ["FR", "NFR", "TSR", "TCR"] = .ok [] := by
    unfold NotionRegistry.typeLoop
    rw [hfr, hrl]
    simp [hnfr, htsr, htcr, NotionRegistry.typeLoop, NotionRegistry.reqLoop]
  unfold NotionRegistry.validate_traceability_chain
  rw [hfeat]
  simp [hbr, hur, hfr, hcf, htl]

/-- C7 witness feature: complete except for the Call-Flow link. -/
def c7Feat : RegistryEntry :=
  { id := "FEAT-AUTH-002", title := "", status := "",
    related_ids := [("BR", ["br-page"]), ("UR", ["ur-page"]),
                    ("FR", ["FR-AUTH-002"])] }

/-- C7 witness requirement. -/
def c7Req : RegistryEntry :=
  { id := "FR-AUTH-002", title := "", status := "",
    related_ids := [("V", ["V-AUTH-002"])] }

/-- C7 witness verification: TestCase link present, status Draft. -/
def c7V : RegistryEntry :=
  { id := "V-AUTH-002", title := "", status := "Draft",
    related_ids := [("TC", ["tc-page"])] }

/-- C7 witness entry oracle. -/
def c7Oracle : NotionRegistry.EntryOracle := fun i =>
  if i = "FEAT-AUTH-002" then .ok (some c7Feat)
  else if i = "FR-AUTH-002" then .ok (some c7Req)
  else if i = "V-AUTH-002" then .ok (some c7V)
  else .ok none

/-- C7 witness: the concrete chain has no errors, one MISSING_CF warning,
and is valid. -/
theorem chain_missing_cf_warning_only_witness :
    NotionRegistry.validate_traceability_chain c7Oracle "FEAT-AUTH-002" =
      .ok { valid := true,
            errors := [],
            warnings := ["MISSING_CF: " ++ "FEAT-AUTH-002" ++ " has no Call Flow"] } :=
  chain_missing_cf_warning_only c7Oracle "FEAT-AUTH-002" "FR-AUTH-002" "V-AUTH-002"
    c7Feat c7Req c7V rfl (by decide) (by decide) (by decide) (by decide)
    (by decide) (by decide) (by decide) rfl (by decide) rfl (by decide)
    (Or.inl (by decide))

/-- Helper: reading a key right after writing it finds the written file. -/
theorem cacheFind_cacheWrite {α : Type} (st : List (String × CacheFile α))
    (key : String) (f : CacheFile α) :
    NotionClient.cacheFind (NotionClient.cacheWrite st key f) key = some f := by
  induction st with
  | nil => simp [NotionClient.cacheWrite, NotionClient.cacheFind]
  | cons hd tl ih =>
      by_cases h : hd.1 = key
      · simp [NotionClient.cacheWrite, NotionClient.cacheFind, h]
      · simp [NotionClient.cacheWrite, NotionClient.cacheFind, h, ih]

/-- Helper: after removing a key, no file is stored under it. -/
theorem cacheFind_cacheRemove {α : Type} (st : List (String × CacheFile α))
    (key : String) :
    NotionClient.cacheFind (NotionClient.cacheRemove st key) key = none := by
  induction st with
  | nil => simp [NotionClient.cacheRemove, NotionClient.cacheFind]
  | cons hd tl ih =>
      by_cases h : hd.1 = key
      · simp [NotionClient.cacheRemove, h, ih]
      · simp [NotionClient.cacheRemove, NotionClient.cacheFind, h, ih]

/-- C9: with caching enabled, (a) writing a payload and reading the same
key while now minus the write time is at most the TTL returns exactly that
payload; (b) reading the same key once now minus the write time exceeds
the TTL is a miss and the entry is no longer stored; (c) a corrupted entry
(content that does not parse) within its TTL reads as a miss and is
removed, not an error. -/
theorem cache_roundtrip {α : Type} (cache_ttl t_w t_r : Int)
    (st : List (String × CacheFile α)) (key : String) (d : α) :
    (t_r - t_w ≤ cache_ttl →
      (NotionClient.get_cached true cache_ttl t_r
        (NotionClient.set_cached true t_w st key d) key).1 = some d) ∧
    (cache_ttl < t_r - t_w →
      (NotionClient.get_cached true cache_ttl t_r
        (NotionClient.set_cached true t_w st key d) key).1 = none ∧
      NotionClient.cacheFind
        (NotionClient.get_cached true cache_ttl t_r
          (NotionClient.set_cached true t_w st key d) key).2 key = none) ∧
    (∀ t_c : Int, NotionClient.cacheFind st key = some ⟨t_c, (none : Option α)⟩ →
      t_r - t_c ≤ cache_ttl →
      (NotionClient.get_cached true cache_ttl t_r st key).1 = none ∧
      NotionClient.cacheFind
        (NotionClient.get_cached true cache_ttl t_r st key).2 key = none) := by
  refine ⟨?_, ?_, ?_⟩
  · intro h
    have hfind := cacheFind_cacheWrite st key (⟨t_w, some d⟩ : CacheFile α)
    have hfresh : ¬ (t_r - t_w > cache_ttl) := not_lt.mpr h
    simp [NotionClient.get_cached, NotionClient.set_cached, hfind, hfresh]
  · intro h
    have hfind := cacheFind_cacheWrite st key (⟨t_w, some d⟩ : CacheFile α)
    have hstale : t_r - t_w > cache_ttl := h
    constructor
    · simp [NotionClient.get_cached, NotionClient.set_cached, hfind, hstale]
    · simp [NotionClient.get_cached, NotionClient.set_cached, hfind, hstale,
            cacheFind_cacheRemove]
  · intro t_c hfind hfresh
    have hns : ¬ (t_r - t_c > cache_ttl) := not_lt.mpr hfresh
    constructor
    · simp [NotionClient.get_cached, hfind, hns]
    · simp [NotionClient.get_cached, hfind, hns, cacheFind_cacheRemove]

/-- C9 witness: concrete Nat payloads: a fresh read returns the written
payload, a stale read misses and deletes, and a corrupted entry misses and
is deleted. -/
theorem cache_roundtrip_witness :
    (NotionClient.get_cached true 600 100
      (NotionClient.set_cached true 50 ([] : List (String × CacheFile Nat)) "k" 7)
      "k").1 = some 7 ∧
    (NotionClient.get_cached true 600 1000
      (NotionClient.set_cached true 50 ([] : List (String × CacheFile Nat)) "k" 7)
      "k").1 = none ∧
    (NotionClient.get_cached true 600 100
      ([("k", (⟨50, none⟩ : CacheFile Nat))]) "k").1 = none ∧
    NotionClient.cacheFind
      (NotionClient.get_cached true 600 100
        ([("k", (⟨50, none⟩ : CacheFile Nat))]) "k").2 "k" = none :=
  ⟨(cache_roundtrip 600 50 100 [] "k" 7).1 (by norm_num),
   ((cache_roundtrip 600 50 1000 [] "k" 7).2.1 (by norm_num)).1,
   ((cache_roundtrip 600 50 100 [("k", (⟨50, none⟩ : CacheFile Nat))] "k" 7).2.2
      50 rfl (by norm_num)).1,
   ((cache_roundtrip 600 50 100 [("k", (⟨50, none⟩ : CacheFile Nat))] "k" 7).2.2
      50 rfl (by norm_num)).2⟩

/-- C5: orphan detection is symmetric-complete: every checkable,
non-excluded parsed symbol whose qualified path has no manifest mapping
appears in orphan_code; every manifest mapping whose path matches no
parsed symbol appears in orphan_manifest; and a path present on both
sides appears in neither list. -/
theorem detect_orphans_symmetric
    (close_matches : String → List String → List String)
    (m : Manifest) (syms : List CodeSymbol) :
    (∀ s ∈ syms, OrphanValidator.should_check_symbol s = true →
      OrphanValidator.is_excluded m s = false →
      s.qualified_path ∉ m.get_symbol_paths →
      s.qualified_path ∈
        (OrphanValidator.detect_orphans close_matches m syms).orphan_code.map (·.path)) ∧
    (∀ mp ∈ m.symbols, mp.path ∉ syms.map (·.qualified_path) →
      mp.path ∈
        (OrphanValidator.detect_orphans close_matches m syms).orphan_manifest.map (·.path)) ∧
    (∀ p, p ∈ syms.map (·.qualified_path) → p ∈ m.get_symbol_paths →
      p ∉ (OrphanValidator.detect_orphans close_matches m syms).orphan_code.map (·.path) ∧
      p ∉ (OrphanValidator.detect_orphans close_matches m syms).orphan_manifest.map (·.path)) := by
  refine ⟨?_, ?_, ?_⟩
  · intro s hs hchk hexc hnot
    simp only [OrphanValidator.detect_orphans, List.map_map, List.mem_map,
      List.mem_filter, Function.comp]
    refine ⟨s, ⟨hs, ?_⟩, rfl⟩
    simp only [decide_eq_true_eq]
    exact ⟨hnot, by simp [hexc], hchk⟩
  · intro mp hmp hnot
    simp only [OrphanValidator.detect_orphans, List.map_map, List.mem_map,
      List.mem_filter, Function.comp]
    refine ⟨mp, ⟨hmp, ?_⟩, rfl⟩
    simp only [decide_eq_true_eq]
    exact fun h => hnot (List.mem_map.mpr h)
  · intro p hp hmani
    constructor
    · intro hmem
      simp only [OrphanValidator.detect_orphans, List.map_map, List.mem_map,
        List.mem_filter, Function.comp] at hmem
      obtain ⟨s, ⟨_hs, hcond⟩, rfl⟩ := hmem
      simp only [decide_eq_true_eq] at hcond
      exact hcond.1 hmani
    · intro hmem
      simp only [OrphanValidator.detect_orphans, List.map_map, List.mem_map,
        List.mem_filter, Function.comp] at hmem
      obtain ⟨mp, ⟨_hmp, hcond⟩, rfl⟩ := hmem
      simp only [decide_eq_true_eq] at hcond
      exact hcond (List.mem_map.mp hp)

/-- C5 witness inputs: one code-only symbol, one manifest-only mapping,
and one path present on both sides. -/
def c5Symbols : List CodeSymbol :=
  [{ name := "lonely", type := "function", file_path := "f.py",
     line_start := 1, line_end := 1 },
   { name := "both", type := "function", file_path := "f.py",
     line_start := 2, line_end := 2 }]

/-- C5 witness manifest. -/
def c5Manifest : Manifest :=
  { service := "svc", version := "1",
    symbols := [{ path := "g.py::ghost", type := "function", ids := [] },
                { path := "f.py::both", type := "function", ids := [] }] }

/-- C5 witness: on the concrete inputs, the code-only path lands in
orphan_code, the manifest-only path in orphan_manifest, and the shared
path in neither. -/
theorem detect_orphans_symmetric_witness :
    "f.py::lonely" ∈
      (OrphanValidator.detect_orphans (fun _ _ => []) c5Manifest
        c5Symbols).orphan_code.map (·.path) ∧
    "g.py::ghost" ∈
      (OrphanValidator.detect_orphans (fun _ _ => []) c5Manifest
        c5Symbols).orphan_manifest.map (·.path) ∧
    "f.py::both" ∉
      (OrphanValidator.detect_orphans (fun _ _ => []) c5Manifest
        c5Symbols).orphan_code.map (·.path) ∧
    "f.py::both" ∉
      (OrphanValidator.detect_orphans (fun _ _ => []) c5Manifest
        c5Symbols).orphan_manifest.map (·.path) := by
  have h := detect_orphans_symmetric (fun _ _ => []) c5Manifest c5Symbols
  refine ⟨?_, ?_, ?_, ?_⟩
  · have := h.1 { name := "lonely", type := "function", file_path := "f.py",
                  line_start := 1, line_end := 1 }
      (by decide) (by decide) (by decide) (by decide)
    simpa using this
  · have := h.2.1 { path := "g.py::ghost", type := "function", ids := [] }
      (by decide) (by decide)
    simpa using this
  · exact (h.2.2 "f.py::both" (by decide) (by decide)).1
  · exact (h.2.2 "f.py::both" (by decide) (by decide)).2

/-- Helper: the mapped set accumulated by the first coverage loop, for any
starting accumulator, is the start plus the set of mapping paths that
occur among the parsed qualified paths. -/
theorem scanMappings_mapped_aux (keys : List String) (ms : List SymbolMapping)
    (acc : CoverageValidator.MapScan) :
    (ms.foldl
      (fun acc mp =>
        if mp.path ∈ keys then { acc with mapped := insert mp.path acc.mapped }
        else { acc with
                errors := acc.errors ++ [CoverageValidator.orphanManifestErr mp]
                invalid_mappings := acc.invalid_mappings ++ [mp.path] })
      acc).mapped =
      acc.mapped ∪ ((ms.map (·.path)).filter (fun p => p ∈ keys)).toFinset := by
  induction ms generalizing acc with
  | nil => simp
  | cons mp rest ih =>
      by_cases h : mp.path ∈ keys
      · simp only [List.foldl_cons, h, if_pos, List.map_cons, List.filter_cons,
          decide_eq_true_eq]
        rw [ih]
        simp [h, Finset.union_insert]
      · simp only [List.foldl_cons, h, if_neg, List.map_cons, List.filter_cons,
          decide_eq_true_eq]
        rw [ih]
        simp [h]

/-- Helper: the mapped set of the first coverage loop is exactly the set
of manifest paths with a matching parsed path. -/
theorem scanMappings_mapped (keys : List String) (ms : List SymbolMapping) :
    (CoverageValidator.scanMappings keys ms).mapped =
      ((ms.map (·.path)).filter (fun p => p ∈ keys)).toFinset := by
  unfold CoverageValidator.scanMappings
  rw [scanMappings_mapped_aux]
  simp

/-- C4: total_symbols is the number of checkable parsed symbols;
mapped_symbols is the number of DISTINCT manifest paths that match some
parsed qualified path (a duplicated manifest path is counted once, being
the cardinality of a set); and the coverage percentage is exactly
mapped over total times one hundred as a rational, with the zero-checkable
case defined to be exactly zero — never a division error. -/
theorem coverage_percentage_spec (m : Manifest) (syms : List CodeSymbol) :
    (CoverageValidator.validate m syms).total_symbols =
      (syms.filter CoverageValidator.should_check_symbol).length ∧
    (CoverageValidator.validate m syms).mapped_symbols =
      ((m.symbols.map (·.path)).filter
        (fun p => p ∈ syms.map (·.qualified_path))).toFinset.card ∧
    (CoverageValidator.validate m syms).coverage_percentage =
      (if (CoverageValidator.validate m syms).total_symbols = 0 then 0
       else ((CoverageValidator.validate m syms).mapped_symbols : ℚ) /
            ((CoverageValidator.validate m syms).total_symbols : ℚ) * 100) := by
  refine ⟨rfl, ?_, ?_⟩
  · simp [CoverageValidator.validate, scanMappings_mapped]
  · simp only [CoverageValidator.validate]
    by_cases h : (syms.filter CoverageValidator.should_check_symbol).length = 0
    · simp [h]
    · have hpos : 0 < (syms.filter CoverageValidator.should_check_symbol).length :=
        Nat.pos_of_ne_zero h
      simp [h, hpos]

/-- Helper: flatMap respects pointwise-equal functions. -/
theorem flatMapCongr {α β : Type} (l : List α) (f g : α → List β)
    (h : ∀ x ∈ l, f x = g x) : l.flatMap f = l.flatMap g := by
  induction l with
  | nil => rfl
  | cons hd tl ih =>
      simp only [List.flatMap_cons]
      rw [h hd (by simp), ih fun x hx => h x (by simp [hx])]

/-- Helper: the per-id consistency check only consults the entry oracle on
ids whose format is valid. -/
theorem checkIdCongr (ge ge' : NotionRegistry.EntryOracle)
    (h : ∀ i, NotionRegistry.validate_id_format i = true → ge i = ge' i)
    (ty i : String) :
    ConsistencyValidator.checkId ge ty i = ConsistencyValidator.checkId ge' ty i := by
  by_cases hf : NotionRegistry.validate_id_format i = true
  · unfold ConsistencyValidator.checkId
    rw [h i hf]
  · simp [ConsistencyValidator.checkId, hf]

/-- C6: for every manifest and every behaviour of the registry (both
oracles arbitrary, including raising), the consistency validator returns a
result in which: a referenced id with invalid format contributes an
INVALID_FORMAT error, and its existence is never checked (the result does
not depend on the entry oracle at invalid-format ids); an id whose
existence check raises contributes an INVALID_ID error embedding the
failure text; a feature whose chain validation raises contributes a
VALIDATION_ERROR error; and the result is valid exactly when the error
list is empty — warnings never affect validity. -/
theorem consistency_validate_spec (m : Manifest)
    (ge : NotionRegistry.EntryOracle) (ch : ConsistencyValidator.ChainOracle) :
    (∀ ty ids i, (ty, ids) ∈ m.get_all_referenced_ids → i ∈ ids →
      NotionRegistry.validate_id_format i = false →
      ConsistencyValidator.invalidFormatEntry i ∈
        (ConsistencyValidator.validate m ge ch).errors) ∧
    (∀ ty ids i e, (ty, ids) ∈ m.get_all_referenced_ids → i ∈ ids →
      NotionRegistry.validate_id_format i = true → ge i = .error e →
      ConsistencyValidator.checkFailedEntry i e ∈
        (ConsistencyValidator.validate m ge ch).errors) ∧
    (∀ f ∈ m.features, ∀ e, ch f.id = .error e →
      ConsistencyValidator.chainFailedEntry f.id e ∈
        (ConsistencyValidator.validate m ge ch).errors) ∧
    ((ConsistencyValidator.validate m ge ch).valid = true ↔
      (ConsistencyValidator.validate m ge ch).errors = []) ∧
    (∀ ge' : NotionRegistry.EntryOracle,
      (∀ i, NotionRegistry.validate_id_format i = true → ge i = ge' i) →
      ConsistencyValidator.validate m ge ch = ConsistencyValidator.validate m ge' ch) := by
  refine ⟨?_, ?_, ?_, ?_, ?_⟩
  · intro ty ids i hmem hi hfmt
    simp only [ConsistencyValidator.validate, List.mem_append, List.mem_flatMap]
    exact Or.inl ⟨(ty, ids), hmem, i, hi, by simp [ConsistencyValidator.checkId, hfmt]⟩
  · intro ty ids i e hmem hi hfmt hge
    simp only [ConsistencyValidator.validate, List.mem_append, List.mem_flatMap]
    exact Or.inl ⟨(ty, ids), hmem, i, hi,
      by simp [ConsistencyValidator.checkId, hfmt, hge]⟩
  · intro f hf e hch
    simp only [ConsistencyValidator.validate, List.mem_append, List.mem_flatMap,
      List.mem_map]
    exact Or.inr ⟨ConsistencyValidator.checkFeature ch f.id, ⟨f, hf, rfl⟩,
      by simp [ConsistencyValidator.checkFeature, hch]⟩
  · simp [ConsistencyValidator.validate, List.isEmpty_iff]
  · intro ge' h
    unfold ConsistencyValidator.validate
    rw [flatMapCongr _ _ _
      (fun p _ => flatMapCongr _ _ _ fun i _ => checkIdCongr ge ge' h p.1 i)]

/-- C6 witness manifest: a symbol mapping referencing a malformed id and a
well-formed one, and one feature. -/
def c6Manifest : Manifest :=
  { service := "svc", version := "1",
    symbols := [{ path := "f.py::x", type := "function",
                  ids := ["BAD", "BR-AUTH-001"] }],
    features := [{ id := "FEAT-AUTH-001", description := "" }] }

/-- C6 witness entry oracle: every lookup raises. -/
def c6Ge : NotionRegistry.EntryOracle := fun _ => .error "api down"

/-- C6 witness chain oracle: chain validation raises. -/
def c6Ch : ConsistencyValidator.ChainOracle := fun _ => .error "timeout"

/-- C6 witness: with both oracles raising, the result still exists and
carries the three structured entries, and is not valid. -/
theorem consistency_validate_spec_witness :
    ConsistencyValidator.invalidFormatEntry "BAD" ∈
      (ConsistencyValidator.validate c6Manifest c6Ge c6Ch).errors ∧
    ConsistencyValidator.checkFailedEntry "BR-AUTH-001" "api down" ∈
      (ConsistencyValidator.validate c6Manifest c6Ge c6Ch).errors ∧
    ConsistencyValidator.chainFailedEntry "FEAT-AUTH-001" "timeout" ∈
      (ConsistencyValidator.validate c6Manifest c6Ge c6Ch).errors ∧
    (ConsistencyValidator.validate c6Manifest c6Ge c6Ch).valid = false := by
  have h := consistency_validate_spec c6Manifest c6Ge c6Ch
  have h1 := h.1 "BAD" ["BAD"] "BAD" (by decide) (by decide) (by decide)
  have h2 := h.2.1 "BR" ["BR-AUTH-001"] "BR-AUTH-001" "api down"
    (by decide) (by decide) (by decide) rfl
  have h3 := h.2.2.1 { id := "FEAT-AUTH-001", description := "" } (by decide)
    "timeout" rfl
  refine ⟨h1, h2, h3, ?_⟩
  cases hval : (ConsistencyValidator.validate c6Manifest c6Ge c6Ch).valid
  · rfl
  · have hemp := h.2.2.2.1.mp hval
    rw [hemp] at h1
    exact absurd h1 (List.not_mem_nil _)

/-- C4 witness inputs: a manifest listing the same path twice. -/
def c4Manifest : Manifest :=
  { service := "svc", version := "1",
    symbols := [{ path := "a.py::f", type := "function", ids := ["FR-AUTH-001"] },
                { path := "a.py::f", type := "function", ids := ["FR-AUTH-002"] }] }

/-- C4 witness symbols: the single checkable symbol the duplicate
mappings point at. -/
def c4Symbols : List CodeSymbol :=
  [{ name := "f", type := "function", file_path := "a.py",
     line_start := 1, line_end := 1 }]

/-- C4 witness: on the duplicate-mapping input the duplicated path is
counted once (mapped_symbols is one, coverage one hundred). -/
theorem coverage_percentage_spec_witness :
    (CoverageValidator.validate c4Manifest c4Symbols).total_symbols = 1 ∧
    (CoverageValidator.validate c4Manifest c4Symbols).mapped_symbols = 1 ∧
    (CoverageValidator.validate c4Manifest c4Symbols).coverage_percentage = 100 := by
  have h := coverage_percentage_spec c4Manifest c4Symbols
  refine ⟨?_, ?_, ?_⟩
  · rw [h.1]
    decide
  · rw [h.2.1]
    decide
  · rw [h.2.2]
    have h1 : (CoverageValidator.validate c4Manifest c4Symbols).total_symbols = 1 := by
      rw [h.1]; decide
    have h2 : (CoverageValidator.validate c4Manifest c4Symbols).mapped_symbols = 1 := by
      rw [h.2.1]; decide
    rw [h1, h2]
    norm_num
